import Mathlib

/-!
Verification of the quote-store contract of `discord_quote_bot`.

Shallow embedding of `src/main.rs`. The persisted sqlite table `quotes`
is modelled as a `List Row` in insertion (rowid) order; each SQL statement
of the program becomes a Lean function on that list:

* `INSERT INTO quotes (user_id, quote_date, quote) VALUES (?,?,?)`
  (the `add` command handler) becomes `execInsert`, which appends one row.
* `SELECT * FROM quotes WHERE user_id = ? ORDER BY RANDOM() LIMIT 1`
  (the `random` command handler) becomes `execSelectRandom`; the
  randomness of the `RANDOM()` ordering of sqlite is modelled by an extra
  index argument `i : Nat` choosing which of the matching rows comes
  first, so a uniformly distributed `i` picks each matching row with
  equal probability.

Dates (`chrono::NaiveDate`, produced by `Utc::now().date_naive()`) are
opaque to the program: it only stores and re-renders them, so they are
modelled as `String` parameters. Discord user ids (`serenity::UserId`,
a `u64`) are modelled as `Nat`; `u64::to_string` is the decimal
rendering, which agrees with `toString : Nat → String` on all `u64`
values.
-/

/-- A row of the `quotes` table as the program reads it back: the sqlx
`query!` macro types every column of `SELECT *` as an `Option`, and the
`random` handler checks `quote` and `quote_date` for `None` at read time
(`.ok_or(DatabaseError::MalformedEntry)?`). -/
structure Row where
  user_id : Option String
  quote_date : Option String
  quote : Option String
deriving DecidableEq, Repr

/-- The error type `DatabaseError` of `main.rs` (lines 69-72): its only
variant is `MalformedEntry`. -/
inductive DatabaseError where
  | malformedEntry
deriving DecidableEq, Repr

/-- Outcomes of the sqlx `fetch_one` call on the select statement: either a
row, or an error — `RowNotFound` when the result set is empty, or an
underlying IO/connection failure. -/
inductive FetchError where
  | rowNotFound
  | io
deriving DecidableEq, Repr

/-- A Discord user as the handlers see it: `user.id.as_u64()` and
`user.name`. -/
structure User where
  id : Nat
  name : String
deriving DecidableEq, Repr

/-- Models `INSERT INTO quotes (user_id, quote_date, quote) VALUES (?,?,?)`:
appends one row to the table, all three columns present. -/
def execInsert (store : List Row) (uid date q : String) : List Row :=
  store ++ [{ user_id := some uid, quote_date := some date, quote := some q }]

/-- The rows of the table satisfying `WHERE user_id = ?` (SQL `=` is
false on NULL, as is `r.user_id = some uid` when `r.user_id = none`). -/
def quotesFor (store : List Row) (uid : String) : List Row :=
  store.filter (fun r => decide (r.user_id = some uid))

/-- Models `SELECT * FROM quotes WHERE user_id = ? ORDER BY RANDOM() LIMIT 1`:
reads the matching rows, returns at most one of them chosen by the
random index `i`, and leaves the table unchanged (a SELECT writes
nothing). `List.get? (i % length)` returns `none` exactly when no row
matches. -/
def execSelectRandom (store : List Row) (uid : String) (i : Nat) :
    List Row × Option Row :=
  (store, (quotesFor store uid).get? (i % (quotesFor store uid).length))

/-- The row (if any) produced by the select statement. -/
def selectRandom (store : List Row) (uid : String) (i : Nat) : Option Row :=
  (execSelectRandom store uid i).2

/-- Models `fetch_one` on the select: `Ok(row)` when a row was produced,
`Err(RowNotFound)` when the result set was empty. (An IO failure of the
pool would instead produce `Except.error FetchError.io`; that case is
fed to `randomHandler` directly where needed.) -/
def fetchOne (store : List Row) (uid : String) (i : Nat) :
    Except FetchError Row :=
  match selectRandom store uid i with
  | some r => Except.ok r
  | none => Except.error FetchError.rowNotFound

/-- The public reply message built by `MessageBuilder` in the Ok branch
of `random`: the quote text pushed bold, a mention of the user (rendered
from the numeric id), `" on "`, and the date. -/
structure QuoteMessage where
  quoteText : String
  mentionId : Nat
  date : String
deriving DecidableEq, Repr

/-- What the `random` handler does with its fetch result, mirroring the
reply channels of the code: `ctx.say` (public), `ctx.send` with
`ephemeral(true)` (visible only to the requester), or returning `Err`
from the handler (`?` on `ok_or(DatabaseError::MalformedEntry)`). -/
inductive RandomReply where
  | say (m : QuoteMessage)
  | sendEphemeral (content : String)
  | failure (e : DatabaseError)
deriving DecidableEq, Repr

/-- Whether the reply is delivered ephemerally ("only visible to the
requester"): only the no-quotes branch calls `.ephemeral(true)`. -/
def RandomReply.isEphemeral : RandomReply → Bool
  | .sendEphemeral _ => true
  | _ => false

/-- The body of the `random` handler (`main.rs` lines 125-137) given the
result of `fetch_one`: on `Ok(body)` it builds the message, failing with
`MalformedEntry` if `body.quote` or `body.quote_date` is `None`; on any
`Err` (the `if let Ok` falls through for every error kind) it sends the
ephemeral "No quotes found" message naming the user. -/
def randomHandler (u : User) (entry : Except FetchError Row) : RandomReply :=
  match entry with
  | Except.ok body =>
    match body.quote with
    | none => RandomReply.failure DatabaseError.malformedEntry
    | some q =>
      match body.quote_date with
      | none => RandomReply.failure DatabaseError.malformedEntry
      | some d => RandomReply.say { quoteText := q, mentionId := u.id, date := d }
  | Except.error _ => RandomReply.sendEphemeral ("No quotes found for user: " ++ u.name ++ " ")

/-- The whole `random` command (`main.rs` lines 114-139): key the query
by the decimal rendering of the numeric user id, fetch, then reply. -/
def randomPipeline (store : List Row) (u : User) (i : Nat) : RandomReply :=
  randomHandler u (fetchOne store (toString u.id) i)

/-- The whole `add` command (`main.rs` lines 92-110): `today` stands for
`Utc::now().date_naive()` at call time; the row is keyed by
`user.id.as_u64().to_string()` and the confirmation message uses the
display name of the user. No validation is performed on `quote`. -/
def addHandler (store : List Row) (u : User) (quote today : String) :
    List Row × String :=
  (execInsert store (toString u.id) today quote,
    "Quote: " ++ quote ++ ", by " ++ u.name ++ " added!")

/-- CLI database-path resolution (`Data::from`, lines 36-40): the given
path verbatim, or the fixed default `"database.sqlite"`. -/
def resolvePath (db : Option String) : String :=
  match db with
  | some p => p
  | none => "database.sqlite"

/-- Observable bootstrap steps of the process, in order. -/
inductive BootStep where
  | printUnit (text : String)
  | connect (path : String) (createIfMissing : Bool)
  | runMigrations
  | registerCommands
  | dispatchLoop
deriving DecidableEq, Repr

/-- Models `Data::from` (lines 35-63): connect to the resolved path with
`create_if_missing(true)`, then run the migrations before returning. -/
def dataFromSteps (db : Option String) : List BootStep :=
  [BootStep.connect (resolvePath db) true, BootStep.runMigrations]

/-- Models `systemd_unit` (lines 173-189), faithful to the `format!`/`push_str`
calls: note that nothing is pushed between the token and `"--database"`,
nor between the database path and `"--guild"`. -/
def systemd_unit (tok : String) (db : Option String) (guild : Option Nat) :
    String :=
  let unit :=
    "[Unit]\nDescription=Discord quote bot\n[Service]\nExecStart=/usr/bin/discord_quote_bot --token "
      ++ tok
  let unit :=
    match db with
    | some database => unit ++ ("--database " ++ database)
    | none => unit
  let unit :=
    match guild with
    | some g => unit ++ ("--guild " ++ toString g)
    | none => unit
  unit ++ "\n[Install]\nWantedBy=multi-user.target"

/-- Models `main` (lines 141-171): with `--make-systemd-unit` it only prints the
unit; otherwise it builds `Data` (connect + migrate) and then starts the
framework, which registers the commands and enters the dispatch loop. -/
def mainSteps (tok : String) (db : Option String) (g : Option Nat)
    (unit : Bool) : List BootStep :=
  if unit then [BootStep.printUnit (systemd_unit tok db g)]
  else dataFromSteps db ++ [BootStep.registerCommands, BootStep.dispatchLoop]

/-! ## Helper lemmas -/

/-- Splitting the matching rows of an appended table. -/
theorem quotesFor_append (s t : List Row) (uid : String) :
    quotesFor (s ++ t) uid = quotesFor s uid ++ quotesFor t uid := by
  simp [quotesFor, List.filter_append]

/-- A row produced by the select statement is one of the matching rows. -/
theorem selectRandom_mem (store : List Row) (uid : String) (i : Nat) (r : Row)
    (h : selectRandom store uid i = some r) : r ∈ quotesFor store uid := by
  unfold selectRandom execSelectRandom at h
  exact List.get?_mem h

/-- Every matching row carries exactly the requested `user_id`. -/
theorem mem_quotesFor_user_id (r : Row) (store : List Row) (uid : String)
    (h : r ∈ quotesFor store uid) : r.user_id = some uid := by
  have h2 := List.mem_filter.mp h
  exact of_decide_eq_true h2.2

/-! ## Claims -/

/-- C3: a successful `AddQuote` inserts exactly one new row, with the given
user identifier, the given text verbatim — including the empty string, no
validation rejects it — and the date passed by the handler, which at the
call site is `Utc::now().date_naive()`, the current UTC calendar date. -/
theorem addQuote_inserts_exactly_one (store : List Row)
    (uid q date : String) (u : User) (today : String) :
    execInsert store uid date q
        = store ++ [{ user_id := some uid, quote_date := some date, quote := some q }]
    ∧ (execInsert store uid date q).length = store.length + 1
    ∧ execInsert store uid date ""
        = store ++ [{ user_id := some uid, quote_date := some date, quote := some "" }]
    ∧ (addHandler store u q today).1
        = store ++ [{ user_id := some (toString u.id), quote_date := some today,
                      quote := some q }] :=
  ⟨rfl, by simp [execInsert], rfl, rfl⟩

/-- C6 (frame): an insert leaves every previously stored row in place and
unchanged — the old table is literally a prefix of the new one, both as a
whole and restricted to any one user — it only ever adds one row at the
end, and the select statement of `random` leaves the table untouched. -/
theorem add_frame_and_random_writes_nothing (store : List Row)
    (uid date q uid2 : String) (i : Nat) :
    (execInsert store uid date q).take store.length = store
    ∧ (execInsert store uid date q).length = store.length + 1
    ∧ (quotesFor (execInsert store uid date q) uid2).take
        (quotesFor store uid2).length = quotesFor store uid2
    ∧ (execSelectRandom store uid2 i).1 = store := by
  refine ⟨List.take_left store _, by simp [execInsert], ?_, rfl⟩
  rw [execInsert, quotesFor_append]
  exact List.take_left _ _

/-- The fixed text before the token in the generated unit. -/
def unitHeader : String :=
  "[Unit]\nDescription=Discord quote bot\n[Service]\nExecStart=/usr/bin/discord_quote_bot --token "

/-- The fixed text closing the generated unit. -/
def unitFooter : String := "\n[Install]\nWantedBy=multi-user.target"

/-- C9: whenever a database path (or guild id) is supplied, the unit text
appends `--database <path>` (and `--guild <id>`) directly after the
preceding argument with no separating whitespace or newline, so the
ExecStart line contains the token immediately followed by `--database`. -/
theorem systemd_unit_concatenates_without_separator (tok d : String) (gid : Nat) :
    systemd_unit tok (some d) none
        = unitHeader ++ tok ++ "--database " ++ d ++ unitFooter
    ∧ systemd_unit tok (some d) (some gid)
        = unitHeader ++ tok ++ "--database " ++ d ++ "--guild " ++ toString gid
            ++ unitFooter
    ∧ systemd_unit tok none (some gid)
        = unitHeader ++ tok ++ "--guild " ++ toString gid ++ unitFooter := by
  refine ⟨?_, ?_, ?_⟩ <;>
    simp [systemd_unit, unitHeader, unitFooter, String.append_assoc]

/-- C8: store construction resolves the optional path to the supplied value
verbatim, defaulting to the fixed filename `database.sqlite`; the backing
file is opened with `create_if_missing(true)` and the migrations run, both
before commands are registered and the dispatch loop starts. -/
theorem store_construction_path_and_migration (tok p : String)
    (db : Option String) (g : Option Nat) :
    resolvePath none = "database.sqlite"
    ∧ resolvePath (some p) = p
    ∧ mainSteps tok db g false
        = [BootStep.connect (resolvePath db) true, BootStep.runMigrations,
           BootStep.registerCommands, BootStep.dispatchLoop] :=
  ⟨rfl, rfl, rfl⟩

/-- C1 counterexample: on an IO `StoreError` during `quote random` the
handler falls into the `if let Ok` else-branch and sends exactly the same
ephemeral "No quotes found" message as the normal empty result — there is
no generic failure reply distinct from it. -/
theorem random_io_error_reply_equals_empty_reply :
    randomHandler { id := 1, name := "alice" } (Except.error FetchError.io)
        = RandomReply.sendEphemeral ("No quotes found for user: " ++ "alice" ++ " ")
    ∧ randomHandler { id := 1, name := "alice" } (Except.error FetchError.io)
        = randomHandler { id := 1, name := "alice" }
            (Except.error FetchError.rowNotFound) :=
  ⟨rfl, rfl⟩

/-- C1 amended: only a `MalformedEntry` on a fetched row surfaces as a
failure distinct from the "no quotes found" reply; any error of the fetch
itself — row-not-found or IO failure alike — is answered with the same
ephemeral "No quotes found" message as the empty result, and the handler
yields a reply or failure in every case. -/
theorem random_error_reply_characterization (u : User) (e : FetchError)
    (body : Row) (s : String) :
    randomHandler u (Except.error e)
        = RandomReply.sendEphemeral ("No quotes found for user: " ++ u.name ++ " ")
    ∧ (randomHandler u (Except.ok body)
          = RandomReply.failure DatabaseError.malformedEntry
        ↔ (body.quote = none ∨ body.quote_date = none))
    ∧ RandomReply.failure DatabaseError.malformedEntry
        ≠ RandomReply.sendEphemeral s := by
  obtain ⟨uf, df, qf⟩ := body
  refine ⟨rfl, ?_, by simp⟩
  cases qf <;> cases df <;> simp [randomHandler]

/-- C2: for a user with zero stored quotes the select yields `None` — never
an error — and the command replies with the ephemeral (visible only to the
requester) message naming the user, which is not a failure reply. -/
theorem random_zero_quotes_is_not_an_error (store : List Row) (u : User)
    (i : Nat) (e : DatabaseError)
    (h : quotesFor store (toString u.id) = []) :
    selectRandom store (toString u.id) i = none
    ∧ randomPipeline store u i
        = RandomReply.sendEphemeral ("No quotes found for user: " ++ u.name ++ " ")
    ∧ (randomPipeline store u i).isEphemeral = true
    ∧ randomPipeline store u i ≠ RandomReply.failure e := by
  have hsel : selectRandom store (toString u.id) i = none := by
    simp [selectRandom, execSelectRandom, h]
  have hrun : randomPipeline store u i
      = RandomReply.sendEphemeral ("No quotes found for user: " ++ u.name ++ " ") := by
    simp [randomPipeline, fetchOne, hsel, randomHandler]
  refine ⟨hsel, hrun, by simp [hrun, RandomReply.isEphemeral], by simp [hrun]⟩

/-- C2 witness: a fresh store and the user with id 1 named alice. -/
theorem random_zero_quotes_is_not_an_error_witness :
    quotesFor [] (toString (1 : Nat)) = []
    ∧ (selectRandom [] (toString (1 : Nat)) 0 = none
      ∧ randomPipeline [] { id := 1, name := "alice" } 0
          = RandomReply.sendEphemeral
              ("No quotes found for user: " ++ "alice" ++ " ")
      ∧ (randomPipeline [] { id := 1, name := "alice" } 0).isEphemeral = true
      ∧ randomPipeline [] { id := 1, name := "alice" } 0
          ≠ RandomReply.failure DatabaseError.malformedEntry) :=
  ⟨rfl, random_zero_quotes_is_not_an_error [] { id := 1, name := "alice" } 0
      DatabaseError.malformedEntry rfl⟩

/-- C4: the `random` command fails with `MalformedEntry` exactly when the
selected row for the requested user exists but its `quote` text or its
`quote_date` is missing; with both fields present no `MalformedEntry`
arises. -/
theorem random_malformed_iff_selected_row_missing_field (store : List Row)
    (u : User) (i : Nat) :
    randomPipeline store u i = RandomReply.failure DatabaseError.malformedEntry
    ↔ ∃ r, selectRandom store (toString u.id) i = some r
        ∧ (r.quote = none ∨ r.quote_date = none) := by
  unfold randomPipeline fetchOne
  cases hsel : selectRandom store (toString u.id) i with
  | none => simp [randomHandler]
  | some r =>
    obtain ⟨uf, df, qf⟩ := r
    cases qf <;> cases df <;> simp [randomHandler]

/-- C5: starting from a store with no quotes for `u1`, after
`AddQuote("u1", "hello world")` the store holds exactly one matching
record, and the select returns that very quote — user `u1`, text
`hello world`, and the date of the add call — whatever the random index. -/
theorem add_then_random_roundtrip (store : List Row) (date : String) (i : Nat)
    (h : quotesFor store "u1" = []) :
    quotesFor (execInsert store "u1" date "hello world") "u1"
        = [{ user_id := some "u1", quote_date := some date,
             quote := some "hello world" }]
    ∧ selectRandom (execInsert store "u1" date "hello world") "u1" i
        = some { user_id := some "u1", quote_date := some date,
                 quote := some "hello world" } := by
  have h1 : quotesFor (execInsert store "u1" date "hello world") "u1"
      = [{ user_id := some "u1", quote_date := some date,
           quote := some "hello world" }] := by
    rw [execInsert, quotesFor_append, h]
    simp [quotesFor]
  refine ⟨h1, ?_⟩
  simp [selectRandom, execSelectRandom, h1, Nat.mod_one]

/-- C5 witness: the empty store, a sample date, random index 5. -/
theorem add_then_random_roundtrip_witness :
    quotesFor [] "u1" = []
    ∧ (quotesFor (execInsert [] "u1" "2024-01-01" "hello world") "u1"
        = [{ user_id := some "u1", quote_date := some "2024-01-01",
             quote := some "hello world" }]
      ∧ selectRandom (execInsert [] "u1" "2024-01-01" "hello world") "u1" 5
          = some { user_id := some "u1", quote_date := some "2024-01-01",
                   quote := some "hello world" }) :=
  ⟨rfl, add_then_random_roundtrip [] "2024-01-01" 5 rfl⟩

/-- C10: both commands key the table by the decimal rendering of the
numeric user id — the one row `add` appends carries exactly that string
as `user_id` and the stored rows do not depend on the display name, and
`random` looks up by the identical encoding, so any row it returns is
keyed by that decimal string. -/
theorem quotes_keyed_by_decimal_user_id (store : List Row) (n : Nat)
    (nm nm2 q today : String) (i : Nat) :
    (addHandler store { id := n, name := nm } q today).1.drop store.length
        = [{ user_id := some (toString n), quote_date := some today,
             quote := some q }]
    ∧ (addHandler store { id := n, name := nm } q today).1
        = (addHandler store { id := n, name := nm2 } q today).1
    ∧ Option.all (fun r => decide ( r.user_id = some (toString n)))
        (selectRandom store (toString n) i) = true
    ∧ randomPipeline store { id := n, name := nm } i
        = randomHandler { id := n, name := nm } (fetchOne store (toString n) i) := by
  refine ⟨List.drop_left store _, rfl, ?_, rfl⟩
  cases hsel : selectRandom store (toString n) i with
  | none => rfl
  | some r =>
    have hm := mem_quotesFor_user_id r store (toString n)
      (selectRandom_mem store (toString n) i r hsel)
    simp [Option.all, hm]

/-- Positions of a list holding a given value are exactly as numerous as
the occurrences of that value: the index-to-row map of a list sends
uniformly chosen indices to each row in proportion to its multiplicity. -/
theorem countP_range_get_eq_count (l : List Row) (r : Row) :
    (List.range l.length).countP (fun i => decide (l.get? i = some r))
      = l.count r := by
  induction l with
  | nil => rfl
  | cons a t ih =>
    rw [List.length_cons, List.range_succ_eq_map, List.countP_cons,
      List.countP_map, List.count_cons]
    have hcomp : ((fun i => decide ((a :: t).get? i = some r)) ∘ Nat.succ)
        = fun i => decide (t.get? i = some r) := rfl
    rw [hcomp, ih]
    by_cases har : a = r <;> simp [har]

/-- C7: for a user with at least one stored quote, the select always
returns one of the currently stored quotes of that user, and under a
uniformly distributed random index each stored row is selected with equal
probability: among the `n` residues the index can take, the number
selecting a given row equals the multiplicity of that row among the
matching quotes. -/
theorem random_uniform_selection (store : List Row) (uid : String)
    (h : quotesFor store uid ≠ []) :
    (∀ i : Nat, ∃ r, selectRandom store uid i = some r
        ∧ r ∈ quotesFor store uid)
    ∧ ∀ r : Row,
        (List.range (quotesFor store uid).length).countP
            (fun i => decide (selectRandom store uid i = some r))
          = (quotesFor store uid).count r := by
  have hpos : 0 < (quotesFor store uid).length :=
    List.length_pos.mpr h
  constructor
  · intro i
    have hlt : i % (quotesFor store uid).length < (quotesFor store uid).length :=
      Nat.mod_lt i hpos
    refine ⟨(quotesFor store uid).get ⟨i % (quotesFor store uid).length, hlt⟩,
      ?_, List.get_mem _ _ _⟩
    simp [selectRandom, execSelectRandom, List.get?_eq_get hlt]
  · intro r
    have hcong : ∀ i ∈ List.range (quotesFor store uid).length,
        (decide (selectRandom store uid i = some r) = true)
          ↔ (decide ((quotesFor store uid).get? i = some r) = true) := by
      intro i hi
      have hlt := List.mem_range.mp hi
      simp [selectRandom, execSelectRandom, Nat.mod_eq_of_lt hlt]
    rw [List.countP_congr hcong]
    exact countP_range_get_eq_count _ r

/-- C7 witness: a user with two stored quotes; both the membership and the
equal-count conclusions evaluate on it. -/
theorem random_uniform_selection_witness :
    quotesFor [{ user_id := some "7", quote_date := some "d1", quote := some "a" },
               { user_id := some "7", quote_date := some "d2", quote := some "b" }] "7" ≠ []
    ∧ ((∀ i : Nat, ∃ r,
          selectRandom
            [{ user_id := some "7", quote_date := some "d1", quote := some "a" },
             { user_id := some "7", quote_date := some "d2", quote := some "b" }] "7" i
            = some r
          ∧ r ∈ quotesFor
              [{ user_id := some "7", quote_date := some "d1", quote := some "a" },
               { user_id := some "7", quote_date := some "d2", quote := some "b" }] "7")
      ∧ ∀ r : Row,
          (List.range (quotesFor
              [{ user_id := some "7", quote_date := some "d1", quote := some "a" },
               { user_id := some "7", quote_date := some "d2", quote := some "b" }] "7").length).countP
              (fun i => decide (selectRandom
                [{ user_id := some "7", quote_date := some "d1", quote := some "a" },
                 { user_id := some "7", quote_date := some "d2", quote := some "b" }] "7" i = some r))
            = (quotesFor
                [{ user_id := some "7", quote_date := some "d1", quote := some "a" },
                 { user_id := some "7", quote_date := some "d2", quote := some "b" }] "7").count r) :=
  ⟨by decide,
    random_uniform_selection
      [{ user_id := some "7", quote_date := some "d1", quote := some "a" },
       { user_id := some "7", quote_date := some "d2", quote := some "b" }] "7"
      (by decide)⟩
